import Mathlib

/-!
Shallow embedding of the audio-vibration engine of this repository:
`src/js/audio-analyzer.js` (spectral analysis, beat detection, tempo
estimation) and `src/js/vibration-controller.js` (pattern mapping and
rate-limited actuation).  JS numbers are modelled as rationals, millisecond
timestamps as integers, byte-valued frequency bins as naturals in 0..255.
-/

namespace AudioVibrate

/-- JS `Math.round` for the (nonnegative) values reached here: `⌊x + 1/2⌋`. -/
def jsRound (q : ℚ) : ℤ := ⌊q + 1/2⌋

/-- JS `Math.max` on integers, written as an explicit comparison so that it
evaluates by kernel reduction. -/
def jsMaxI (a b : ℤ) : ℤ := if a < b then b else a

/-- JS `Math.min` on integers. -/
def jsMinI (a b : ℤ) : ℤ := if b < a then b else a

/-- JS `Math.max` on rationals. -/
def jsMaxQ (a b : ℚ) : ℚ := if a < b then b else a

/-- JS `Math.min` on rationals. -/
def jsMinQ (a b : ℚ) : ℚ := if b < a then b else a

/-- Frequency of bin `i`: `i * sampleRate / (2 * binCount)` (audio-analyzer.js:162). -/
def binFreq (sr : ℚ) (binCount : ℕ) (i : ℕ) : ℚ := i * (sr / (2 * binCount))

/-- Bin index for a frequency bound: `Math.floor(f * binCount / (sampleRate / 2))`
(audio-analyzer.js:320-329, 416-417). -/
def freqToBin (sr : ℚ) (binCount : ℕ) (f : ℚ) : ℕ := (⌊f * binCount / (sr / 2)⌋).toNat

/-- Beat classification carried in the `type` field of a detected beat
(audio-analyzer.js:295). -/
inductive BeatType
  | kick
  | energy
deriving DecidableEq, Repr

/-- The fields of the object `detectBeat` returns that the claims mention
(`energy`/`kickEnergy` echo fields are omitted).  `btype` is `none` on the
returns that carry no `type` field. -/
structure BeatResult where
  detected : Bool
  strength : ℚ
  bpm : ℤ
  confidence : ℚ
  btype : Option BeatType
deriving DecidableEq, Repr

/-- Mutable analyzer state: `beatDetection.lastBeatTime`, `energyHistory`,
`average`, `variance` (audio-analyzer.js:31-39) plus the tempo-estimator
fields `beatIntervals` and `lastBeatTimestamp` (audio-analyzer.js:357, 364). -/
structure AnalyzerState where
  lastBeatTime : ℤ
  energyHistory : List ℚ
  average : ℚ
  variance : ℚ
  beatIntervals : List ℤ
  lastBeatTimestamp : Option ℤ
deriving DecidableEq, Repr

/-- The analyzer's state at construction: `lastBeatTime = 0`, empty history,
`average = variance = 0`, no recorded intervals, no last beat timestamp. -/
def freshAnalyzer : AnalyzerState :=
  { lastBeatTime := 0, energyHistory := [], average := 0, variance := 0,
    beatIntervals := [], lastBeatTimestamp := none }

/-- Interval recording of `estimateBPM` (audio-analyzer.js:363-374): when a
previous beat timestamp exists — the JS guard `if (this.lastBeatTimestamp)`
is falsy both for `undefined` and for the number 0 — and the gap lies in
`[minInterval, 2000]`, push it and drop the oldest entry once more than 20
are stored. -/
def updateIntervals (currentTime : ℤ) (s : AnalyzerState) : List ℤ :=
  match s.lastBeatTimestamp with
  | none => s.beatIntervals
  | some last =>
    if last = 0 then s.beatIntervals
    else
      let interval := currentTime - last
      if 300 ≤ interval ∧ interval ≤ 2000 then
        let pushed := s.beatIntervals ++ [interval]
        if 20 < pushed.length then pushed.tail else pushed
      else s.beatIntervals

/-- `estimateBPM` (audio-analyzer.js:355-397): records the interval since
the previous beat when it lies in `[minInterval, 2000]`, keeps the most
recent 20 intervals, and once 4 intervals are stored returns
`clamp(Math.round(60000 / (median*0.7 + mean*0.3)), 60, 200)`, else 0.
The returned BPM is the first component; the second is the updated state. -/
def estimateBPM (currentTime : ℤ) (s : AnalyzerState) : ℤ × AnalyzerState :=
  let intervals := updateIntervals currentTime s
  let s' := { s with beatIntervals := intervals, lastBeatTimestamp := some currentTime }
  if 4 ≤ intervals.length then
    let sorted := intervals.insertionSort (· ≤ ·)
    let medianInterval := sorted.getD (sorted.length / 2) 0
    let avgInterval : ℚ := (intervals.sum : ℚ) / intervals.length
    let finalInterval : ℚ := (medianInterval : ℚ) * (7/10) + avgInterval * (3/10)
    let bpm := jsRound (60000 / finalInterval)
    (jsMaxI 60 (jsMinI 200 bpm), s')
  else
    (0, s')

/-- Repeated `estimateBPM` calls, one per accepted beat timestamp; each output
entry pairs the returned BPM with the interval list stored after that call. -/
def runBPM : List ℤ → AnalyzerState → List (ℤ × List ℤ) × AnalyzerState
  | [], s => ([], s)
  | t :: rest, s =>
    let step := estimateBPM t s
    let cont := runBPM rest step.2
    ((step.1, step.2.beatIntervals) :: cont.1, cont.2)

/-- Median of the stored intervals as the code computes it: element at index
`⌊n/2⌋` of the ascending sort (audio-analyzer.js:381-382). -/
def medianOf (l : List ℤ) : ℤ :=
  let sorted := l.insertionSort (· ≤ ·)
  sorted.getD (sorted.length / 2) 0

/-- Arithmetic mean of the stored intervals (audio-analyzer.js:385). -/
def meanOf (l : List ℤ) : ℚ := (l.sum : ℚ) / l.length

/-- The blended interval `median*0.7 + mean*0.3` (audio-analyzer.js:388). -/
def blendOf (l : List ℤ) : ℚ := (medianOf l : ℚ) * (7/10) + meanOf l * (3/10)

/-- The BPM the code reports from a full interval list:
`clamp(Math.round(60000 / blend), 60, 200)` (audio-analyzer.js:390-393). -/
def roundedBPM (l : List ℤ) : ℤ := jsMaxI 60 (jsMinI 200 (jsRound (60000 / blendOf l)))

/-- Spec-worded BPM, for comparison with the code: the spec's formula
`BPM = 60000 / (0.7*median + 0.3*mean)` clamped to `[60, 200]`, with no
rounding step. -/
def specBPM (l : List ℤ) : ℚ := jsMaxQ 60 (jsMinQ 200 (60000 / blendOf l))

lemma estimateBPM_fst (t : ℤ) (s : AnalyzerState) :
    (estimateBPM t s).1 =
      if 4 ≤ (updateIntervals t s).length then roundedBPM (updateIntervals t s) else 0 := by
  simp only [estimateBPM, roundedBPM, blendOf, medianOf, meanOf]
  split <;> rfl

lemma estimateBPM_snd_intervals (t : ℤ) (s : AnalyzerState) :
    (estimateBPM t s).2.beatIntervals = updateIntervals t s := by
  simp only [estimateBPM]
  split <;> rfl

lemma updateIntervals_mem (t : ℤ) (s : AnalyzerState)
    (hs : ∀ x ∈ s.beatIntervals, 300 ≤ x ∧ x ≤ 2000) :
    ∀ x ∈ updateIntervals t s, 300 ≤ x ∧ x ≤ 2000 := by
  intro x hx
  unfold updateIntervals at hx
  cases h : s.lastBeatTimestamp with
  | none => rw [h] at hx; exact hs x hx
  | some last =>
    rw [h] at hx
    simp only at hx
    split at hx
    · exact hs x hx
    · split at hx
      · rename_i hacc
        split at hx
        · have := List.mem_of_mem_tail hx
          rcases List.mem_append.1 this with h1 | h2
          · exact hs x h1
          · simp at h2; subst h2; exact hacc
        · rcases List.mem_append.1 hx with h1 | h2
          · exact hs x h1
          · simp at h2; subst h2; exact hacc
      · exact hs x hx

lemma roundedBPM_bounds (l : List ℤ) : 60 ≤ roundedBPM l ∧ roundedBPM l ≤ 200 := by
  unfold roundedBPM jsMaxI jsMinI
  constructor
  · split
    · split <;> omega
    · omega
  · split
    · split <;> omega
    · omega

lemma runBPM_forall (ts : List ℤ) (s : AnalyzerState)
    (hs : ∀ x ∈ s.beatIntervals, 300 ≤ x ∧ x ≤ 2000) :
    ∀ e ∈ (runBPM ts s).1,
      (∀ x ∈ e.2, 300 ≤ x ∧ x ≤ 2000) ∧
      (e.2.length < 4 → e.1 = 0) ∧
      (4 ≤ e.2.length → e.1 = roundedBPM e.2 ∧ 60 ≤ e.1 ∧ e.1 ≤ 200) := by
  induction ts generalizing s with
  | nil => intro e he; simp [runBPM] at he
  | cons t rest ih =>
    intro e he
    rw [runBPM] at he
    rcases List.mem_cons.1 he with rfl | hmem
    · refine ⟨?_, ?_, ?_⟩
      · rw [estimateBPM_snd_intervals]
        exact updateIntervals_mem t s hs
      · intro hlen
        have hlen' : (updateIntervals t s).length < 4 := by
          simpa [estimateBPM_snd_intervals] using hlen
        rw [estimateBPM_fst, if_neg (by omega)]
      · intro hlen
        have hlen' : 4 ≤ (updateIntervals t s).length := by
          simpa [estimateBPM_snd_intervals] using hlen
        refine ⟨?_, ?_⟩
        · show (estimateBPM t s).1 = roundedBPM (estimateBPM t s).2.beatIntervals
          rw [estimateBPM_fst, estimateBPM_snd_intervals, if_pos hlen']
        · show 60 ≤ (estimateBPM t s).1 ∧ (estimateBPM t s).1 ≤ 200
          rw [estimateBPM_fst, if_pos hlen']
          exact roundedBPM_bounds _
    · exact ih (estimateBPM t s).2
        (by rw [estimateBPM_snd_intervals]; exact updateIntervals_mem t s hs) e hmem

/-- C3 (amended): in any session of `estimateBPM` calls, every stored interval
was accepted from `[minBeatIntervalMs, 2000]`; the reported BPM is 0 while
fewer than 4 intervals are stored, and once 4 or more are stored it equals
`clamp(Math.round(60000 / (0.7*median + 0.3*mean)), 60, 200)` — the code
rounds to the nearest integer before clamping, with the median taken as the
element at index `⌊n/2⌋` of the sorted list — and in particular always lies
in `[60, 200]`. -/
theorem tempo_bpm_characterization (ts : List ℤ) :
    ∀ e ∈ (runBPM ts freshAnalyzer).1,
      (∀ x ∈ e.2, 300 ≤ x ∧ x ≤ 2000) ∧
      (e.2.length < 4 → e.1 = 0) ∧
      (4 ≤ e.2.length → e.1 = roundedBPM e.2 ∧ 60 ≤ e.1 ∧ e.1 ≤ 200) :=
  runBPM_forall ts freshAnalyzer (by simp [freshAnalyzer])

/-- Witness for `tempo_bpm_characterization`: the five-beat run at 500 ms
spacing (beats at 1000..3000 ms), instantiated at its fifth output entry. -/
theorem tempo_bpm_characterization_witness :
    (∀ x ∈ [(500 : ℤ), 500, 500, 500], 300 ≤ x ∧ x ≤ 2000) ∧
    ((4 : ℕ) ≤ 4 → (120 : ℤ) = roundedBPM [500, 500, 500, 500] ∧
      (60 : ℤ) ≤ 120 ∧ (120 : ℤ) ≤ 200) := by
  have h := tempo_bpm_characterization [1000, 1500, 2000, 2500, 3000]
    ((120 : ℤ), [(500 : ℤ), 500, 500, 500])
    (by norm_num [runBPM, estimateBPM, updateIntervals, freshAnalyzer, jsRound,
      jsMaxI, jsMinI, List.insertionSort, List.orderedInsert])
  exact ⟨h.1, h.2.2⟩

/-- C3 counterexample: after beats at 1000, 1500, 2100, 2800, 3600 ms the stored
intervals are [500, 600, 700, 800] and the code reports BPM 88, while the
claim's unrounded `clamp(60000 / (0.7*median + 0.3*mean), 60, 200)` is the
non-integer 12000/137 ≈ 87.59 — the claim's equality fails. -/
theorem tempo_bpm_unrounded_counterexample :
    ((runBPM [1000, 1500, 2100, 2800, 3600] freshAnalyzer).1.getD 4 (0, [])).1 = 88 ∧
    ((runBPM [1000, 1500, 2100, 2800, 3600] freshAnalyzer).1.getD 4 (0, [])).2 =
      [500, 600, 700, 800] ∧
    ((88 : ℚ) ≠ specBPM [500, 600, 700, 800]) := by
  refine ⟨?_, ?_, ?_⟩
  · norm_num [runBPM, estimateBPM, updateIntervals, freshAnalyzer, jsRound, jsMaxI,
      jsMinI, List.insertionSort, List.orderedInsert]
  · norm_num [runBPM, estimateBPM, updateIntervals, freshAnalyzer, jsRound, jsMaxI,
      jsMinI, List.insertionSort, List.orderedInsert]
  · norm_num [specBPM, blendOf, medianOf, meanOf, jsMaxQ, jsMinQ,
      List.insertionSort, List.orderedInsert]

/-- C8 (amended): five beats at exactly 500 ms spacing, from a fresh tempo
estimator, yield four accepted 500 ms intervals, and the fifth call reports
BPM = 120. -/
theorem five_beats_500ms_give_bpm_120 :
    ((runBPM [1000, 1500, 2000, 2500, 3000] freshAnalyzer).1.getD 4 (0, [])).1 = 120 ∧
    ((runBPM [1000, 1500, 2000, 2500, 3000] freshAnalyzer).1.getD 4 (0, [])).2 =
      [500, 500, 500, 500] := by
  constructor <;>
    norm_num [runBPM, estimateBPM, updateIntervals, freshAnalyzer, jsRound, jsMaxI,
      jsMinI, List.insertionSort, List.orderedInsert]

/-- C8 counterexample: four beats at 500 ms spacing produce only three
accepted intervals, so the fourth call reports BPM 0, not 120. -/
theorem four_beats_500ms_give_bpm_zero :
    ((runBPM [1000, 1500, 2000, 2500] freshAnalyzer).1.getD 3 (0, [])).1 = 0 ∧
    ((runBPM [1000, 1500, 2000, 2500] freshAnalyzer).1.getD 3 (0, [])).2 =
      [500, 500, 500] ∧
    (0 : ℤ) ≠ 120 := by
  refine ⟨?_, ?_, by norm_num⟩ <;>
    norm_num [runBPM, estimateBPM, updateIntervals, freshAnalyzer]

/-- Result of `calculateEnergy` (audio-analyzer.js:347-351). -/
structure EnergyData where
  total : ℚ
  bass : ℚ
  kick : ℚ
deriving DecidableEq, Repr

/-- `calculateEnergy` (audio-analyzer.js:310-352): mean square magnitude over
the 20-4000 Hz bins, plus the 20-250 Hz bass band and 60-120 Hz kick band,
each normalized by its own bin count. -/
def calculateEnergy (data : List ℕ) (sr : ℚ) : EnergyData :=
  let binCount := data.length
  let startBin := freqToBin sr binCount 20
  let endBin := freqToBin sr binCount 4000
  let kickStartBin := freqToBin sr binCount 60
  let kickEndBin := freqToBin sr binCount 120
  let bassStartBin := freqToBin sr binCount 20
  let bassEndBin := freqToBin sr binCount 250
  let idxs := List.range' startBin (min endBin data.length - startBin)
  let acc := idxs.foldl
    (fun acc i =>
      let value : ℚ := (data.getD i 0 : ℚ) / 255
      let energyValue := value * value
      { total := acc.total + energyValue
        kick := if kickStartBin ≤ i ∧ i ≤ kickEndBin then acc.kick + energyValue else acc.kick
        bass := if bassStartBin ≤ i ∧ i ≤ bassEndBin then acc.bass + energyValue else acc.bass })
    ({ total := 0, bass := 0, kick := 0 } : EnergyData)
  { total := acc.total / ((endBin : ℚ) - (startBin : ℚ))
    bass := acc.bass / ((bassEndBin : ℚ) - (bassStartBin : ℚ))
    kick := acc.kick / ((kickEndBin : ℚ) - (kickStartBin : ℚ)) }

/-- The `detected: false` object `detectBeat` returns (audio-analyzer.js:237-242,
299-306); the echo-only energy fields are not modelled. -/
def noBeatResult : BeatResult :=
  { detected := false, strength := 0, bpm := 0, confidence := 0, btype := none }

/-- History update of `detectBeat` (audio-analyzer.js:251-254): push the
current energy, dropping the oldest entry past `historySize = 43`. -/
def pushEnergy (hist : List ℚ) (e : ℚ) : List ℚ :=
  let pushed := hist ++ [e]
  if 43 < pushed.length then pushed.tail else pushed

/-- Statistics update of `detectBeat` (audio-analyzer.js:257-266): mean and
variance are recomputed only once the history holds at least 43 samples;
otherwise the previous values are kept. -/
def recomputeStats (hist : List ℚ) (avg vr : ℚ) : ℚ × ℚ :=
  if 43 ≤ hist.length then
    let a := hist.sum / (hist.length : ℚ)
    (a, ((hist.map fun v => (v - a) ^ 2).sum) / (hist.length : ℚ))
  else (avg, vr)

/-- Detected branch of `detectBeat` (audio-analyzer.js:277-297): stamp
`lastBeatTime`, call `estimateBPM`, and report strength, confidence and the
`kick`/`energy` classification. -/
def beatHit (currentTime : ℤ) (s : AnalyzerState) (hist : List ℚ)
    (avg vr currentEnergy kickEnergy : ℚ) (energyBeat kickBeat : Bool) :
    BeatResult × AnalyzerState :=
  let s1 := { s with
    lastBeatTime := currentTime
    energyHistory := hist
    average := avg
    variance := vr }
  let bpmStep := estimateBPM currentTime s1
  let threshold := avg * (13/10)
  let kickThreshold := avg * (8/10)
  let energyStrength := if energyBeat then (currentEnergy - threshold) / threshold else 0
  let kickStrength := if kickBeat then (kickEnergy - kickThreshold) / kickThreshold else 0
  ({ detected := true
     strength := jsMinQ (jsMaxQ energyStrength kickStrength) 1
     bpm := bpmStep.1
     confidence := jsMinQ (vr * 10) 1
     btype := some (if kickBeat then BeatType.kick else BeatType.energy) }, bpmStep.2)

/-- Non-detected branch of `detectBeat` (audio-analyzer.js:299-306). -/
def beatMiss (s : AnalyzerState) (hist : List ℚ) (avg vr : ℚ) :
    BeatResult × AnalyzerState :=
  (noBeatResult, { s with
    energyHistory := hist
    average := avg
    variance := vr })

/-- `detectBeat` (audio-analyzer.js:232-307): reject inside the minimum beat
interval, otherwise push energy, refresh statistics and fire when the
broadband threshold (with variance floor) or the kick threshold is crossed. -/
def detectBeat (currentTime : ℤ) (data : List ℕ) (sr : ℚ) (s : AnalyzerState) :
    BeatResult × AnalyzerState :=
  if currentTime - s.lastBeatTime < 300 then
    (noBeatResult, s)
  else
    let energyData := calculateEnergy data sr
    let hist := pushEnergy s.energyHistory energyData.total
    let stats := recomputeStats hist s.average s.variance
    let threshold := stats.1 * (13/10)
    let kickThreshold := stats.1 * (8/10)
    let energyBeat := decide (threshold < energyData.total) && decide ((1/100 : ℚ) < stats.2)
    let kickBeat := decide (kickThreshold < energyData.kick)
    if energyBeat || kickBeat then
      beatHit currentTime s hist stats.1 stats.2 energyData.total energyData.kick
        energyBeat kickBeat
    else
      beatMiss s hist stats.1 stats.2

/-- A 64-bin frame whose only energy sits in bin 1; at an 8000 Hz sample
rate that bin is 62.5 Hz, inside the 60-120 Hz kick band. -/
def frame64 : List ℕ := (List.replicate 64 0).set 1 255

/-- A session of `detectBeat` ticks: each output entry records the tick
time, the returned BeatResult and the energy-history length after the
tick. -/
def runDetect (sr : ℚ) :
    List (ℤ × List ℕ) → AnalyzerState → List (ℤ × BeatResult × ℕ) × AnalyzerState
  | [], s => ([], s)
  | (t, frame) :: rest, s =>
    let step := detectBeat t frame sr s
    let cont := runDetect sr rest step.2
    ((t, step.1, step.2.energyHistory.length) :: cont.1, cont.2)

lemma estimateBPM_snd_core (t : ℤ) (s : AnalyzerState) :
    (estimateBPM t s).2.lastBeatTime = s.lastBeatTime ∧
    (estimateBPM t s).2.energyHistory = s.energyHistory ∧
    (estimateBPM t s).2.variance = s.variance := by
  simp only [estimateBPM]
  split <;> exact ⟨rfl, rfl, rfl⟩

lemma beatHit_fst_detected (t : ℤ) (s : AnalyzerState) (hist : List ℚ)
    (avg vr cE kE : ℚ) (eb kb : Bool) :
    (beatHit t s hist avg vr cE kE eb kb).1.detected = true := rfl

lemma beatHit_fst_btype (t : ℤ) (s : AnalyzerState) (hist : List ℚ)
    (avg vr cE kE : ℚ) (eb kb : Bool) :
    (beatHit t s hist avg vr cE kE eb kb).1.btype =
      some (if kb then BeatType.kick else BeatType.energy) := rfl

lemma beatHit_snd (t : ℤ) (s : AnalyzerState) (hist : List ℚ)
    (avg vr cE kE : ℚ) (eb kb : Bool) :
    (beatHit t s hist avg vr cE kE eb kb).2.lastBeatTime = t ∧
    (beatHit t s hist avg vr cE kE eb kb).2.energyHistory = hist ∧
    (beatHit t s hist avg vr cE kE eb kb).2.variance = vr := by
  unfold beatHit
  refine ⟨(estimateBPM_snd_core t _).1, ?_, ?_⟩
  · exact (estimateBPM_snd_core t _).2.1
  · exact (estimateBPM_snd_core t _).2.2

lemma detectBeat_detected_time (t : ℤ) (data : List ℕ) (sr : ℚ) (s : AnalyzerState) :
    ((detectBeat t data sr s).1.detected = true →
      s.lastBeatTime + 300 ≤ t ∧ (detectBeat t data sr s).2.lastBeatTime = t) ∧
    ((detectBeat t data sr s).1.detected = false →
      (detectBeat t data sr s).2.lastBeatTime = s.lastBeatTime) := by
  by_cases hguard : t - s.lastBeatTime < 300
  · simp only [detectBeat, if_pos hguard]
    exact ⟨fun h => by simp [noBeatResult] at h, fun _ => trivial⟩
  · have ht : s.lastBeatTime + 300 ≤ t := by omega
    simp only [detectBeat, if_neg hguard]
    split
    · exact ⟨fun _ => ⟨ht, (beatHit_snd t s _ _ _ _ _ _ _).1⟩,
        fun h => by rw [beatHit_fst_detected] at h; simp at h⟩
    · exact ⟨fun h => by simp [beatMiss, noBeatResult] at h, fun _ => rfl⟩

lemma detectBeat_lastBeatTime_mono (t : ℤ) (data : List ℕ) (sr : ℚ) (s : AnalyzerState) :
    s.lastBeatTime ≤ (detectBeat t data sr s).2.lastBeatTime := by
  cases h : (detectBeat t data sr s).1.detected with
  | false => rw [(detectBeat_detected_time t data sr s).2 h]
  | true =>
    have := (detectBeat_detected_time t data sr s).1 h
    omega

lemma runDetect_detected_ge (sr : ℚ) (inputs : List (ℤ × List ℕ)) (s : AnalyzerState) :
    ∀ e ∈ (runDetect sr inputs s).1, e.2.1.detected = true → s.lastBeatTime + 300 ≤ e.1 := by
  induction inputs generalizing s with
  | nil => intro e he; simp [runDetect] at he
  | cons p rest ih =>
    obtain ⟨t, frame⟩ := p
    intro e he hdet
    rw [runDetect] at he
    rcases List.mem_cons.1 he with rfl | hmem
    · exact ((detectBeat_detected_time t frame sr s).1 hdet).1
    · have hmono := detectBeat_lastBeatTime_mono t frame sr s
      have := ih (detectBeat t frame sr s).2 e hmem hdet
      omega

/-- C1: in any single session of ticks from a fresh BeatTracker, any two
ticks that both report `detected = true` are at least `minBeatIntervalMs =
300` ms apart; equivalently, once a beat is detected at time `t`, every
later call at a time before `t + 300` reports `detected = false` (each run
entry is `(tickTime, beatResult, historyLength)`). -/
theorem beat_min_interval_invariant (sr : ℚ) (inputs : List (ℤ × List ℕ)) :
    (runDetect sr inputs freshAnalyzer).1.Pairwise
      (fun a b => a.2.1.detected = true → b.2.1.detected = true → a.1 + 300 ≤ b.1) := by
  suffices h : ∀ s : AnalyzerState,
      (runDetect sr inputs s).1.Pairwise
        (fun a b => a.2.1.detected = true → b.2.1.detected = true → a.1 + 300 ≤ b.1) from
    h freshAnalyzer
  induction inputs with
  | nil => intro s; simp [runDetect]
  | cons p rest ih =>
    intro s
    obtain ⟨t, frame⟩ := p
    rw [runDetect]
    refine List.pairwise_cons.2 ⟨?_, ih _⟩
    intro b hb hdet hdetb
    have hL : (detectBeat t frame sr s).2.lastBeatTime = t :=
      ((detectBeat_detected_time t frame sr s).1 hdet).2
    have := runDetect_detected_ge sr rest (detectBeat t frame sr s).2 b hb hdetb
    omega

/-- The broadband-energy path condition of `detectBeat`
(audio-analyzer.js:273): `currentEnergy > average*threshold` with the
variance floor, evaluated against the freshly pushed history. -/
def energyBeatCond (data : List ℕ) (sr : ℚ) (s : AnalyzerState) : Bool :=
  let energyData := calculateEnergy data sr
  let hist := pushEnergy s.energyHistory energyData.total
  let stats := recomputeStats hist s.average s.variance
  decide (stats.1 * (13/10) < energyData.total) && decide ((1/100 : ℚ) < stats.2)

lemma pushEnergy_short (hist : List ℚ) (e : ℚ)
    (h : (pushEnergy hist e).length < 43) : hist.length < 43 := by
  simp only [pushEnergy] at h
  split at h
  · rename_i hgt
    simp at h hgt
    omega
  · rename_i hle
    simp at h
    omega

lemma pushEnergy_stays_short (hist : List ℚ) (e : ℚ)
    (h : hist.length + 1 < 43) : (pushEnergy hist e).length < 43 := by
  simp only [pushEnergy]
  rw [if_neg (by simp; omega)]
  simp
  omega

lemma recomputeStats_short (hist : List ℚ) (a v : ℚ) (h : hist.length < 43) :
    recomputeStats hist a v = (a, v) := by
  unfold recomputeStats
  rw [if_neg (by omega)]

lemma detectBeat_short (t : ℤ) (data : List ℕ) (sr : ℚ) (s : AnalyzerState)
    (hinv : s.energyHistory.length < 43 → s.variance = 0) :
    ((detectBeat t data sr s).2.energyHistory.length < 43 →
      (detectBeat t data sr s).2.variance = 0) ∧
    ((detectBeat t data sr s).2.energyHistory.length < 43 →
      (detectBeat t data sr s).1.detected = true →
      (detectBeat t data sr s).1.btype = some BeatType.kick) := by
  by_cases hguard : t - s.lastBeatTime < 300
  · simp only [detectBeat, if_pos hguard]
    exact ⟨hinv, fun _ h => by simp [noBeatResult] at h⟩
  · simp only [detectBeat, if_neg hguard]
    split
    · rename_i hcond
      constructor
      · intro hlen
        rw [(beatHit_snd _ _ _ _ _ _ _ _ _).2.1] at hlen
        rw [(beatHit_snd _ _ _ _ _ _ _ _ _).2.2]
        rw [recomputeStats_short _ _ _ hlen]
        exact hinv (pushEnergy_short _ _ hlen)
      · intro hlen _
        rw [(beatHit_snd _ _ _ _ _ _ _ _ _).2.1] at hlen
        rw [beatHit_fst_btype]
        have hv2 : (recomputeStats
            (pushEnergy s.energyHistory (calculateEnergy data sr).total)
            s.average s.variance).2 = 0 := by
          rw [recomputeStats_short _ _ _ hlen]
          exact hinv (pushEnergy_short _ _ hlen)
        rw [hv2] at hcond
        have hno : ¬((1 : ℚ)/100 < 0) := by norm_num
        simp only [decide_eq_false hno, Bool.and_false, Bool.false_or] at hcond
        rw [hcond]
        simp
    · rename_i hcond
      constructor
      · intro hlen
        simp only [beatMiss] at hlen ⊢
        rw [recomputeStats_short _ _ _ hlen]
        exact hinv (pushEnergy_short _ _ hlen)
      · intro _ h
        simp [beatMiss, noBeatResult] at h

lemma runDetect_kick_only (sr : ℚ) (inputs : List (ℤ × List ℕ)) :
    ∀ s : AnalyzerState, (s.energyHistory.length < 43 → s.variance = 0) →
    ∀ e ∈ (runDetect sr inputs s).1,
      e.2.2 < 43 → e.2.1.detected = true → e.2.1.btype = some BeatType.kick := by
  induction inputs with
  | nil => intro s _ e he; simp [runDetect] at he
  | cons p rest ih =>
    intro s hs e he
    obtain ⟨t, frame⟩ := p
    rw [runDetect] at he
    rcases List.mem_cons.1 he with rfl | hmem
    · exact (detectBeat_short t frame sr s hs).2
    · exact ih (detectBeat t frame sr s).2 (detectBeat_short t frame sr s hs).1 e hmem

/-- C6 (amended): from a fresh BeatTracker, the broadband-energy path never
fires before the EnergyHistory holds its 43 configured samples — its
variance gate stays at the initial 0, below the 0.01 floor — so every beat
emitted earlier is classified `kick`: the kick path is not gated on history
fill, because it thresholds against the still-zero running mean. -/
theorem beat_waiting_until_history_full (sr : ℚ) (inputs : List (ℤ × List ℕ)) :
    (∀ e ∈ (runDetect sr inputs freshAnalyzer).1,
      e.2.2 < 43 → e.2.1.detected = true → e.2.1.btype = some BeatType.kick) ∧
    (∀ (data : List ℕ) (s : AnalyzerState),
      s.energyHistory.length + 1 < 43 → s.variance = 0 →
      energyBeatCond data sr s = false) := by
  constructor
  · exact runDetect_kick_only sr inputs freshAnalyzer (by simp [freshAnalyzer])
  · intro data s hlen hv
    simp only [energyBeatCond]
    rw [recomputeStats_short _ _ _ (pushEnergy_stays_short _ _ hlen), hv]
    have hno : ¬((1 : ℚ)/100 < 0) := by norm_num
    simp [decide_eq_false hno]

/-- C6 counterexample: on the very first tick (history size 1, far below
43), a frame with energy concentrated in the 60-120 Hz kick band already
yields a `detected = true` beat of type `kick`, because the kick threshold
`average * 0.8` is still zero. -/
theorem beat_kick_on_first_tick :
    (detectBeat 1000 frame64 8000 freshAnalyzer).1.detected = true ∧
    (detectBeat 1000 frame64 8000 freshAnalyzer).2.energyHistory.length = 1 ∧
    ((1 : ℕ) < 43) ∧
    (detectBeat 1000 frame64 8000 freshAnalyzer).1.btype = some BeatType.kick := by
  norm_num [detectBeat, calculateEnergy, freqToBin, estimateBPM, updateIntervals,
    freshAnalyzer, frame64, jsMinQ, jsMaxQ, List.range', List.replicate,
    pushEnergy, recomputeStats, beatHit, noBeatResult]

/-- The band-level fields of an analysis result's `frequency` object that the
vibration controller reads (vibration-controller.js:242-253). -/
structure FreqData where
  bass : ℚ
  mid : ℚ
  treble : ℚ
deriving DecidableEq, Repr

/-- The `volume.level` field the vibration controller reads
(vibration-controller.js:224, 272-276). -/
structure VolData where
  level : ℚ
deriving DecidableEq, Repr

/-- Mutable controller state (vibration-controller.js:8-31) plus the
detector memories `lastFrequencyData`/`lastVolumeData` created on first use
(vibration-controller.js:231-232, 262-263).  The adaptive-sync flag and
latency-compensation value live in `config` in the source. -/
structure VibState where
  isSupported : Bool
  isEnabled : Bool
  lastVibrationTime : ℤ
  isVibrating : Bool
  adaptiveSync : Bool
  latencyCompensation : ℚ
  latencyHistory : List ℚ
  avgLatency : ℚ
  lastFrequencyData : Option FreqData
  lastVolumeData : Option VolData
deriving DecidableEq, Repr

/-- Controller state at construction on a vibration-capable device with
vibration enabled: `lastVibrationTime = 0`, default config
(`adaptiveSync = true`, `latencyCompensation = 20`), empty histories. -/
def freshVib : VibState :=
  { isSupported := true, isEnabled := true, lastVibrationTime := 0, isVibrating := false,
    adaptiveSync := true, latencyCompensation := 20, latencyHistory := [], avgLatency := 0,
    lastFrequencyData := none, lastVolumeData := none }

/-- `applyLatencyCompensation` (vibration-controller.js:121-138): shorten the
first on-duration by the compensation, floored at 10 ms. -/
def applyLatencyCompensation (s : VibState) (pattern : List ℚ) : List ℚ :=
  if s.adaptiveSync = false ∨ s.latencyCompensation = 0 then pattern
  else
    match pattern with
    | [] => []
    | p0 :: rest => jsMaxQ 10 (p0 - s.latencyCompensation) :: rest

/-- `updateSyncStats` (vibration-controller.js:141-158): push the measured
latency (bounded ring of 20), recompute the rolling average, and with
adaptive sync and at least 10 samples set the compensation to the average
clamped into [0, 50]. -/
def updateSyncStats (latency : ℚ) (s : VibState) : VibState :=
  let pushed := s.latencyHistory ++ [latency]
  let hist := if 20 < pushed.length then pushed.tail else pushed
  let avg := hist.sum / (hist.length : ℚ)
  let comp := if s.adaptiveSync = true ∧ 10 ≤ hist.length
    then jsMinQ 50 (jsMaxQ 0 avg) else s.latencyCompensation
  { s with
    latencyHistory := hist
    avgLatency := avg
    latencyCompensation := comp }

/-- `vibrate` (vibration-controller.js:75-118): refuse when unsupported or
disabled, rate-limit against `lastVibrationTime` with `minInterval = 20`,
then dispatch the compensated pattern.  `actuatorOk` stands for the value
`navigator.vibrate` returns and `latency` for the measured round trip; the
middle component is the pattern handed to the actuator (`none` when no
actuator call was made).  The asynchronous `isVibrating` reset timer is not
modelled. -/
def vibrate (now : ℤ) (latency : ℚ) (actuatorOk : Bool) (pattern : List ℚ) (s : VibState) :
    Bool × Option (List ℚ) × VibState :=
  if ¬(s.isSupported = true) ∨ ¬(s.isEnabled = true) then (false, none, s)
  else if now - s.lastVibrationTime < 20 then (false, none, s)
  else
    let compensated := applyLatencyCompensation s pattern
    if actuatorOk then
      (true, some compensated,
        updateSyncStats latency { s with lastVibrationTime := now, isVibrating := true })
    else (false, some compensated, s)

/-- A session of `vibrate` calls; each trace entry is
`(now, measuredLatency, actuatorResult, pattern)` and each output entry
records the call time and whether the call returned `true`. -/
def runVibrate : List (ℤ × ℚ × Bool × List ℚ) → VibState → List (ℤ × Bool) × VibState
  | [], s => ([], s)
  | (now, lat, ok, pat) :: rest, s =>
    let step := vibrate now lat ok pat s
    let cont := runVibrate rest step.2.2
    ((now, step.1) :: cont.1, cont.2)

lemma updateSyncStats_lastVibrationTime (latency : ℚ) (s : VibState) :
    (updateSyncStats latency s).lastVibrationTime = s.lastVibrationTime := rfl

lemma vibrate_success_time (now : ℤ) (latency : ℚ) (ok : Bool) (pat : List ℚ) (s : VibState) :
    ((vibrate now latency ok pat s).1 = true →
      s.lastVibrationTime + 20 ≤ now ∧
      (vibrate now latency ok pat s).2.2.lastVibrationTime = now) ∧
    ((vibrate now latency ok pat s).1 = false →
      (vibrate now latency ok pat s).2.2.lastVibrationTime = s.lastVibrationTime) := by
  unfold vibrate
  split
  · exact ⟨fun h => by simp at h, fun _ => rfl⟩
  · rename_i hflags
    split
    · exact ⟨fun h => by simp at h, fun _ => rfl⟩
    · rename_i hwin
      split
      · refine ⟨fun _ => ⟨by omega, ?_⟩, fun h => by simp at h⟩
        exact updateSyncStats_lastVibrationTime _ _
      · exact ⟨fun h => by simp at h, fun _ => rfl⟩

lemma vibrate_time_mono (now : ℤ) (latency : ℚ) (ok : Bool) (pat : List ℚ) (s : VibState) :
    s.lastVibrationTime ≤ (vibrate now latency ok pat s).2.2.lastVibrationTime := by
  cases h : (vibrate now latency ok pat s).1 with
  | false => rw [(vibrate_success_time now latency ok pat s).2 h]
  | true =>
    have := (vibrate_success_time now latency ok pat s).1 h
    omega

lemma runVibrate_success_ge (trace : List (ℤ × ℚ × Bool × List ℚ)) (s : VibState) :
    ∀ e ∈ (runVibrate trace s).1, e.2 = true → s.lastVibrationTime + 20 ≤ e.1 := by
  induction trace generalizing s with
  | nil => intro e he; simp [runVibrate] at he
  | cons p rest ih =>
    obtain ⟨now, lat, ok, pat⟩ := p
    intro e he hsucc
    rw [runVibrate] at he
    rcases List.mem_cons.1 he with rfl | hmem
    · exact ((vibrate_success_time now lat ok pat s).1 hsucc).1
    · have hmono := vibrate_time_mono now lat ok pat s
      have := ih (vibrate now lat ok pat s).2.2 e hmem hsucc
      omega

/-- C2: for every sequence of candidate commands in one session, any two
calls that actually actuated (returned `true`) are at least
`minActuationIntervalMs = 20` ms apart; and any command arriving within
20 ms of the last successful actuation is rejected: it returns `false`,
makes no actuator call, and leaves the state unchanged. -/
theorem sync_min_actuation_invariant (trace : List (ℤ × ℚ × Bool × List ℚ)) :
    ((runVibrate trace freshVib).1.Pairwise
      (fun a b => a.2 = true → b.2 = true → a.1 + 20 ≤ b.1)) ∧
    (∀ (now : ℤ) (latency : ℚ) (ok : Bool) (pat : List ℚ) (s : VibState),
      now - s.lastVibrationTime < 20 →
      vibrate now latency ok pat s = (false, none, s)) := by
  constructor
  · suffices h : ∀ s : VibState,
        (runVibrate trace s).1.Pairwise
          (fun a b => a.2 = true → b.2 = true → a.1 + 20 ≤ b.1) from h freshVib
    induction trace with
    | nil => intro s; simp [runVibrate]
    | cons p rest ih =>
      intro s
      obtain ⟨now, lat, ok, pat⟩ := p
      rw [runVibrate]
      refine List.pairwise_cons.2 ⟨?_, ih _⟩
      intro b hb hsucc hsuccb
      have hL : (vibrate now lat ok pat s).2.2.lastVibrationTime = now :=
        ((vibrate_success_time now lat ok pat s).1 hsucc).2
      have := runVibrate_success_ge rest (vibrate now lat ok pat s).2.2 b hb hsuccb
      omega
  · intro now latency ok pat s hwin
    unfold vibrate
    split <;> simp_all

/-- `detectFrequencyChange` (vibration-controller.js:230-258): store-only on
first call; inside 150 ms of the last actuation return `false` with no other
effect; otherwise store the new frame and fire on a bass jump > 0.3 with
level > 0.5 or a treble jump > 0.4 with level > 0.6. -/
def detectFrequencyChange (frequencyData : FreqData) (now : ℤ) (s : VibState) :
    Bool × VibState :=
  match s.lastFrequencyData with
  | none => (false, { s with lastFrequencyData := some frequencyData })
  | some prev =>
    if now - s.lastVibrationTime < 150 then (false, s)
    else
      let bassChange := |frequencyData.bass - prev.bass|
      let trebleChange := |frequencyData.treble - prev.treble|
      let s' := { s with lastFrequencyData := some frequencyData }
      if 3/10 < bassChange ∧ 1/2 < frequencyData.bass then (true, s')
      else if 4/10 < trebleChange ∧ 3/5 < frequencyData.treble then (true, s')
      else (false, s')

/-- `detectVolumeChange` (vibration-controller.js:261-277): store-only on
first call; inside 200 ms of the last actuation return `false` with no other
effect; otherwise store the new level and fire on a jump > 0.3 with
level > 0.7. -/
def detectVolumeChange (volumeData : VolData) (now : ℤ) (s : VibState) :
    Bool × VibState :=
  match s.lastVolumeData with
  | none => (false, { s with lastVolumeData := some volumeData })
  | some prev =>
    if now - s.lastVibrationTime < 200 then (false, s)
    else
      let volumeChange := |volumeData.level - prev.level|
      let s' := { s with lastVolumeData := some volumeData }
      (decide (3/10 < volumeChange ∧ 7/10 < volumeData.level), s')

/-- The pattern `handleBeatVibration` picks (vibration-controller.js:280-311):
kick beats get [300,50] or [200,50] split at strength 0.8; other beats get
strongBeat/beat/light presets split at 0.8 and 0.5; with a known BPM whose
implied interval is under 400 ms the on-duration is capped at 80 ms.  The JS
defaults `strength || 0.5` and `type || 'energy'` are modelled explicitly. -/
def beatPattern (beatData : BeatResult) : List ℚ :=
  let intensity := if beatData.strength = 0 then 1/2 else beatData.strength
  let beatType := beatData.btype.getD BeatType.energy
  let base : List ℚ :=
    if beatType = BeatType.kick then
      (if 4/5 < intensity then [300, 50] else [200, 50])
    else if 4/5 < intensity then [350, 50]
    else if 1/2 < intensity then [200, 50]
    else [120, 30]
  if 0 < beatData.bpm ∧ (60000 : ℚ) / (beatData.bpm : ℚ) < 400 then
    match base with
    | p0 :: p1 :: _ => [jsMinQ p0 80, p1]
    | l => l
  else base

/-- `handleFrequencyVibration` (vibration-controller.js:315-325): with bass
above the 0.15 threshold, vibrate for `floor(min(bass*4, 1) * 800)` ms when
that exceeds 50 ms; `none` means no `vibrate` call. -/
def handleFrequencyVibration (frequencyData : FreqData) : Option (List ℚ) :=
  if 15/100 < frequencyData.bass then
    let intensity := jsMinQ (frequencyData.bass * 4) 1
    let duration := ⌊intensity * 800⌋
    if 50 < duration then some [(duration : ℚ), 100] else none
  else none

/-- `handleVolumeVibration` (vibration-controller.js:328-334): only above
level 0.8 and while not vibrating, pulse for `floor(level * 150)` ms. -/
def handleVolumeVibration (volume : ℚ) (isVibrating : Bool) : Option (List ℚ) :=
  if 4/5 < volume ∧ isVibrating = false then
    some [((⌊volume * 150⌋ : ℤ) : ℚ), 50]
  else none

/-- Which mapping path issued a `vibrate` call during one tick. -/
inductive VibSource
  | beat
  | freq
  | volume
deriving DecidableEq, Repr

/-- The per-tick analysis result `processAudioData` receives. -/
structure AudioData where
  beat : BeatResult
  frequency : FreqData
  volume : VolData
deriving DecidableEq, Repr

/-- `syncVibrationWithAudio` (vibration-controller.js:203-227): beat first,
then frequency transient, then volume swell, each path returning
immediately; the first component lists the `vibrate` invocations the tick
makes (source and pattern), the second the detector state afterwards. -/
def syncVibrationWithAudio (audioData : AudioData) (now : ℤ) (s : VibState) :
    List (VibSource × List ℚ) × VibState :=
  if audioData.beat.detected then
    ([(VibSource.beat, beatPattern audioData.beat)], s)
  else
    let fc := detectFrequencyChange audioData.frequency now s
    if fc.1 then
      (match handleFrequencyVibration audioData.frequency with
       | some p => [(VibSource.freq, p)]
       | none => [], fc.2)
    else
      let vc := detectVolumeChange audioData.volume now fc.2
      if vc.1 then
        (match handleVolumeVibration audioData.volume.level vc.2.isVibrating with
         | some p => [(VibSource.volume, p)]
         | none => [], vc.2)
      else ([], vc.2)

lemma sync_beat_calls (audioData : AudioData) (now : ℤ) (s : VibState)
    (hb : audioData.beat.detected = true) :
    syncVibrationWithAudio audioData now s =
      ([(VibSource.beat, beatPattern audioData.beat)], s) := by
  simp only [syncVibrationWithAudio, if_pos hb]

lemma sync_freq_calls (audioData : AudioData) (now : ℤ) (s : VibState)
    (hb : audioData.beat.detected = false)
    (hfc : (detectFrequencyChange audioData.frequency now s).1 = true) :
    (syncVibrationWithAudio audioData now s).1 =
      (match handleFrequencyVibration audioData.frequency with
       | some p => [(VibSource.freq, p)]
       | none => []) := by
  simp only [syncVibrationWithAudio, hb, Bool.false_eq_true, if_false, hfc, if_true]

lemma sync_vol_calls (audioData : AudioData) (now : ℤ) (s : VibState)
    (hb : audioData.beat.detected = false)
    (hfc : (detectFrequencyChange audioData.frequency now s).1 = false) :
    (syncVibrationWithAudio audioData now s).1 =
      (if (detectVolumeChange audioData.volume now
            (detectFrequencyChange audioData.frequency now s).2).1 then
        (match handleVolumeVibration audioData.volume.level
            (detectVolumeChange audioData.volume now
              (detectFrequencyChange audioData.frequency now s).2).2.isVibrating with
         | some p => [(VibSource.volume, p)]
         | none => [])
      else []) := by
  simp only [syncVibrationWithAudio, hb, Bool.false_eq_true, if_false, hfc]
  split <;> rfl

lemma bool_eq_false_of_ne_true {b : Bool} (h : ¬b = true) : b = false := by
  cases hb : b
  · rfl
  · exact absurd hb h

/-- C4: `syncVibrationWithAudio` evaluates beat, then frequency transient,
then volume swell in strict priority order.  When the tick's result carries
`detected = true` the single emitted command is the beat-derived pattern —
the transient and volume paths are not consulted; at most one `vibrate`
call happens per tick; and a freq- resp. volume-sourced call can only
happen on a beat-less tick where `detectFrequencyChange` returned `true`
resp. `false`. -/
theorem mapper_priority (audioData : AudioData) (now : ℤ) (s : VibState) :
    (audioData.beat.detected = true →
      (syncVibrationWithAudio audioData now s).1 =
        [(VibSource.beat, beatPattern audioData.beat)]) ∧
    ((syncVibrationWithAudio audioData now s).1.length ≤ 1) ∧
    (∀ c ∈ (syncVibrationWithAudio audioData now s).1,
      (c.1 = VibSource.freq →
        audioData.beat.detected = false ∧
        (detectFrequencyChange audioData.frequency now s).1 = true) ∧
      (c.1 = VibSource.volume →
        audioData.beat.detected = false ∧
        (detectFrequencyChange audioData.frequency now s).1 = false)) := by
  refine ⟨?_, ?_, ?_⟩
  · intro hb
    rw [sync_beat_calls audioData now s hb]
  · by_cases hb : audioData.beat.detected = true
    · rw [sync_beat_calls audioData now s hb]
      simp
    · have hb' := bool_eq_false_of_ne_true hb
      by_cases hfc : (detectFrequencyChange audioData.frequency now s).1 = true
      · rw [sync_freq_calls audioData now s hb' hfc]
        cases handleFrequencyVibration audioData.frequency <;> simp
      · rw [sync_vol_calls audioData now s hb' (bool_eq_false_of_ne_true hfc)]
        split
        · cases handleVolumeVibration audioData.volume.level
            (detectVolumeChange audioData.volume now
              (detectFrequencyChange audioData.frequency now s).2).2.isVibrating <;> simp
        · simp
  · intro c hc
    by_cases hb : audioData.beat.detected = true
    · rw [sync_beat_calls audioData now s hb] at hc
      rcases List.mem_singleton.1 hc with rfl
      exact ⟨fun h => by simp at h, fun h => by simp at h⟩
    · have hb' := bool_eq_false_of_ne_true hb
      by_cases hfc : (detectFrequencyChange audioData.frequency now s).1 = true
      · rw [sync_freq_calls audioData now s hb' hfc] at hc
        cases hh : handleFrequencyVibration audioData.frequency with
        | none => rw [hh] at hc; simp at hc
        | some p =>
          rw [hh] at hc
          rcases List.mem_singleton.1 hc with rfl
          exact ⟨fun _ => ⟨hb', hfc⟩, fun h => by simp at h⟩
      · have hfc' := bool_eq_false_of_ne_true hfc
        rw [sync_vol_calls audioData now s hb' hfc'] at hc
        split at hc
        · cases hh : handleVolumeVibration audioData.volume.level
              (detectVolumeChange audioData.volume now
                (detectFrequencyChange audioData.frequency now s).2).2.isVibrating with
          | none => rw [hh] at hc; simp at hc
          | some p =>
            rw [hh] at hc
            rcases List.mem_singleton.1 hc with rfl
            exact ⟨fun h => by simp at h, fun _ => ⟨hb', hfc'⟩⟩
        · simp at hc

/-- C10 (amended): the non-beat paths enforce stricter per-path rate limits
than the global 20 ms minimum — within 150 ms of the last actuation
`detectFrequencyChange`, and within 200 ms `detectVolumeChange`, returns
`false` while leaving the whole state, including its stored previous value,
untouched (the stored value is only overwritten outside the window, or on a
first call that only stores). -/
theorem detector_rate_limits (f : FreqData) (v : VolData) (now : ℤ) (s : VibState)
    (p : FreqData) (q : VolData) :
    (s.lastFrequencyData = some p → now - s.lastVibrationTime < 150 →
      detectFrequencyChange f now s = (false, s)) ∧
    (s.lastVolumeData = some q → now - s.lastVibrationTime < 200 →
      detectVolumeChange v now s = (false, s)) := by
  constructor
  · intro hp hwin
    simp only [detectFrequencyChange, hp]
    rw [if_pos hwin]
  · intro hq hwin
    simp only [detectVolumeChange, hq]
    rw [if_pos hwin]

/-- A controller state 100 ms after a successful actuation at t = 1000, with
stored previous frequency and volume data. -/
def vibStateAt1000 : VibState :=
  { freshVib with
    lastVibrationTime := 1000
    lastFrequencyData := some { bass := 1/10, mid := 0, treble := 1/10 }
    lastVolumeData := some { level := 1/10 } }

/-- C10 counterexample: 100 ms after an actuation (inside both windows),
both detectors return `false` and keep their OLD stored values — the claim
that they still overwrite the stored previous value is false. -/
theorem detector_no_overwrite_counterexample :
    ((1100 : ℤ) - vibStateAt1000.lastVibrationTime < 150) ∧
    (detectFrequencyChange { bass := 9/10, mid := 0, treble := 9/10 } 1100 vibStateAt1000).1
      = false ∧
    (detectFrequencyChange { bass := 9/10, mid := 0, treble := 9/10 } 1100
      vibStateAt1000).2.lastFrequencyData = some { bass := 1/10, mid := 0, treble := 1/10 } ∧
    some ({ bass := 1/10, mid := 0, treble := 1/10 } : FreqData) ≠
      some ({ bass := 9/10, mid := 0, treble := 9/10 } : FreqData) ∧
    (detectVolumeChange { level := 9/10 } 1100 vibStateAt1000).1 = false ∧
    (detectVolumeChange { level := 9/10 } 1100 vibStateAt1000).2.lastVolumeData =
      some { level := 1/10 } ∧
    some ({ level := 1/10 } : VolData) ≠ some ({ level := 9/10 } : VolData) := by
  refine ⟨by norm_num [vibStateAt1000, freshVib], ?_, ?_, ?_, ?_, ?_, ?_⟩ <;>
    norm_num [detectFrequencyChange, detectVolumeChange, vibStateAt1000, freshVib,
      FreqData.mk.injEq, VolData.mk.injEq]

/-- Band-level part of `analyzeFrequency`'s result (audio-analyzer.js:219-228);
peak, total energy, centroid and brightness are not claim-relevant and are
not modelled. -/
structure FreqLevels where
  bass : ℚ
  mid : ℚ
  treble : ℚ
deriving DecidableEq, Repr

/-- Accumulators of `analyzeFrequency`'s scan loop
(audio-analyzer.js:164-166). -/
structure FreqAcc where
  bassSum : ℚ
  bassCount : ℕ
  midSum : ℚ
  midCount : ℕ
  trebleSum : ℚ
  trebleCount : ℕ
deriving DecidableEq, Repr

/-- `binSize = sampleRate / (2 * binCount)` (audio-analyzer.js:162). -/
def binSizeOf (data : List ℕ) (sr : ℚ) : ℚ := sr / (2 * data.length)

/-- The bass-band test of the scan loop: `20 ≤ i*binSize ≤ 250`
(audio-analyzer.js:182-183). -/
def bassCond (binSize : ℚ) (i : ℕ) : Bool :=
  decide (20 ≤ (i : ℚ) * binSize ∧ (i : ℚ) * binSize ≤ 250)

/-- The mid-band test: `250 ≤ i*binSize ≤ 4000` (audio-analyzer.js:186-187). -/
def midCond (binSize : ℚ) (i : ℕ) : Bool :=
  decide (250 ≤ (i : ℚ) * binSize ∧ (i : ℚ) * binSize ≤ 4000)

/-- The treble-band test: `4000 ≤ i*binSize ≤ 20000`
(audio-analyzer.js:190-191). -/
def trebleCond (binSize : ℚ) (i : ℕ) : Bool :=
  decide (4000 ≤ (i : ℚ) * binSize ∧ (i : ℚ) * binSize ≤ 20000)

/-- One iteration of `analyzeFrequency`'s scan loop: the else-if chain
routes each bin magnitude to the first matching band
(audio-analyzer.js:175-194). -/
def freqStep (binSize : ℚ) (acc : FreqAcc) (i : ℕ) (v : ℚ) : FreqAcc :=
  if bassCond binSize i then
    { acc with bassSum := acc.bassSum + v, bassCount := acc.bassCount + 1 }
  else if midCond binSize i then
    { acc with midSum := acc.midSum + v, midCount := acc.midCount + 1 }
  else if trebleCond binSize i then
    { acc with trebleSum := acc.trebleSum + v, trebleCount := acc.trebleCount + 1 }
  else acc

/-- `maxBin = Math.floor(min(5000, sampleRate/2) * binCount / (sampleRate/2))`
(audio-analyzer.js:171-173): the scan loop stops at 5000 Hz, the commented
"music frequency range". -/
def scanMaxBin (data : List ℕ) (sr : ℚ) : ℕ :=
  (⌊jsMinQ 5000 (sr / 2) * (data.length : ℚ) / (sr / 2)⌋).toNat

/-- The indices the scan loop visits: `1 ≤ i < maxBin` (DC bin skipped,
audio-analyzer.js:175). -/
def scannedBins (data : List ℕ) (sr : ℚ) : List ℕ :=
  List.range' 1 (scanMaxBin data sr - 1)

/-- `analyzeFrequency` (audio-analyzer.js:158-229), band-level part: fold the
scan loop over the scanned bins and report each band's mean (0 when a band
caught no bins). -/
def analyzeFrequency (data : List ℕ) (sr : ℚ) : FreqLevels :=
  let binSize := binSizeOf data sr
  let acc := (scannedBins data sr).foldl
    (fun acc i => freqStep binSize acc i ((data.getD i 0 : ℚ) / 255))
    { bassSum := 0, bassCount := 0, midSum := 0, midCount := 0,
      trebleSum := 0, trebleCount := 0 }
  { bass := if 0 < acc.bassCount then acc.bassSum / (acc.bassCount : ℚ) else 0
    mid := if 0 < acc.midCount then acc.midSum / (acc.midCount : ℚ) else 0
    treble := if 0 < acc.trebleCount then acc.trebleSum / (acc.trebleCount : ℚ) else 0 }

/-- Effective mid predicate of the else-if chain: mid-range and not bass. -/
def midOnly (binSize : ℚ) (i : ℕ) : Bool := !bassCond binSize i && midCond binSize i

/-- Effective treble predicate of the else-if chain: treble-range and
neither bass nor mid. -/
def trebleOnly (binSize : ℚ) (i : ℕ) : Bool :=
  !bassCond binSize i && !midCond binSize i && trebleCond binSize i

/-- Arithmetic mean of the magnitudes at the given bin indices (0 for no
bins). -/
def bandMean (data : List ℕ) (l : List ℕ) : ℚ :=
  if 0 < l.length then ((l.map fun i => (data.getD i 0 : ℚ) / 255).sum) / (l.length : ℚ)
  else 0

/-- Spec-worded band energy, for comparison with the code: the arithmetic
mean of the magnitudes of ALL bins whose frequency
`binIndex * sampleRate / (2 * binCount)` falls within `[lo, hi]`. -/
def claimedBandEnergy (data : List ℕ) (sr lo hi : ℚ) : ℚ :=
  let idx := (List.range data.length).filter
    (fun i => decide (lo ≤ binFreq sr data.length i ∧ binFreq sr data.length i ≤ hi))
  ((idx.map fun i => (data.getD i 0 : ℚ) / 255).sum) / (idx.length : ℚ)

lemma freqFold_spec (binSize : ℚ) (val : ℕ → ℚ) (l : List ℕ) (acc : FreqAcc) :
    (l.foldl (fun a i => freqStep binSize a i (val i)) acc).bassSum
        = acc.bassSum + ((l.filter (bassCond binSize)).map val).sum ∧
    (l.foldl (fun a i => freqStep binSize a i (val i)) acc).bassCount
        = acc.bassCount + (l.filter (bassCond binSize)).length ∧
    (l.foldl (fun a i => freqStep binSize a i (val i)) acc).midSum
        = acc.midSum + ((l.filter (midOnly binSize)).map val).sum ∧
    (l.foldl (fun a i => freqStep binSize a i (val i)) acc).midCount
        = acc.midCount + (l.filter (midOnly binSize)).length ∧
    (l.foldl (fun a i => freqStep binSize a i (val i)) acc).trebleSum
        = acc.trebleSum + ((l.filter (trebleOnly binSize)).map val).sum ∧
    (l.foldl (fun a i => freqStep binSize a i (val i)) acc).trebleCount
        = acc.trebleCount + (l.filter (trebleOnly binSize)).length := by
  induction l generalizing acc with
  | nil => simp
  | cons i rest ih =>
    simp only [List.foldl_cons]
    have h := ih (freqStep binSize acc i (val i))
    cases hb : bassCond binSize i with
    | true =>
      simp only [freqStep, hb, if_true, List.filter_cons, midOnly, trebleOnly,
        Bool.not_true, Bool.false_and, Bool.false_eq_true, if_false] at h ⊢
      simp only [h.1, h.2.1, h.2.2.1, h.2.2.2.1, h.2.2.2.2.1, h.2.2.2.2.2]
      refine ⟨?_, ?_, ?_, ?_, ?_, ?_⟩ <;>
        simp only [List.map_cons, List.sum_cons, List.length_cons] <;>
        first
          | rfl
          | ring
    | false =>
      cases hm : midCond binSize i with
      | true =>
        simp only [freqStep, hb, hm, if_true, Bool.false_eq_true, if_false,
          List.filter_cons, midOnly, trebleOnly, Bool.not_true, Bool.not_false,
          Bool.true_and, Bool.and_false, Bool.false_and] at h ⊢
        simp only [h.1, h.2.1, h.2.2.1, h.2.2.2.1, h.2.2.2.2.1, h.2.2.2.2.2]
        refine ⟨?_, ?_, ?_, ?_, ?_, ?_⟩ <;>
          simp only [List.map_cons, List.sum_cons, List.length_cons] <;>
          first
            | rfl
            | ring
      | false =>
        cases ht : trebleCond binSize i with
        | true =>
          simp only [freqStep, hb, hm, ht, if_true, Bool.false_eq_true, if_false,
            List.filter_cons, midOnly, trebleOnly, Bool.not_true, Bool.not_false,
            Bool.true_and, Bool.and_false, Bool.false_and] at h ⊢
          simp only [h.1, h.2.1, h.2.2.1, h.2.2.2.1, h.2.2.2.2.1, h.2.2.2.2.2]
          refine ⟨?_, ?_, ?_, ?_, ?_, ?_⟩ <;>
            simp only [List.map_cons, List.sum_cons, List.length_cons] <;>
            first
              | rfl
              | ring
        | false =>
          simp only [freqStep, hb, hm, ht, Bool.false_eq_true, if_false,
            List.filter_cons, midOnly, trebleOnly, Bool.not_true, Bool.not_false,
            Bool.true_and, Bool.and_false, Bool.false_and] at h ⊢
          exact h

theorem band_energy_scanned_means (data : List ℕ) (sr : ℚ) :
    analyzeFrequency data sr =
      { bass := bandMean data ((scannedBins data sr).filter (bassCond (binSizeOf data sr)))
        mid := bandMean data ((scannedBins data sr).filter (midOnly (binSizeOf data sr)))
        treble :=
          bandMean data ((scannedBins data sr).filter (trebleOnly (binSizeOf data sr))) } := by
  have h := freqFold_spec (binSizeOf data sr) (fun i => (data.getD i 0 : ℚ) / 255)
    (scannedBins data sr)
    { bassSum := 0, bassCount := 0, midSum := 0, midCount := 0,
      trebleSum := 0, trebleCount := 0 }
  simp only [analyzeFrequency, bandMean]
  rw [h.1, h.2.1, h.2.2.1, h.2.2.2.1, h.2.2.2.2.1, h.2.2.2.2.2]
  simp

lemma scannedBins_freq_lt (data : List ℕ) (sr : ℚ) (hsr : 0 < sr) :
    ∀ i ∈ scannedBins data sr, binFreq sr data.length i < jsMinQ 5000 (sr / 2) := by
  intro i hi
  rw [scannedBins, List.mem_range'_1] at hi
  have hmax : i < scanMaxBin data sr := by omega
  rw [scanMaxBin] at hmax
  rw [Int.lt_toNat] at hmax
  have hix : (i : ℚ) < jsMinQ 5000 (sr / 2) * (data.length : ℚ) / (sr / 2) := by
    have h1 : ((i : ℤ) : ℚ) + 1 ≤ ((⌊jsMinQ 5000 (sr / 2) * (data.length : ℚ) / (sr / 2)⌋ : ℤ) : ℚ) := by
      exact_mod_cast hmax
    have h2 := Int.floor_le (jsMinQ 5000 (sr / 2) * (data.length : ℚ) / (sr / 2))
    push_cast at h1
    linarith
  have hsr2 : (0 : ℚ) < sr / 2 := by positivity
  rcases Nat.eq_zero_or_pos data.length with hn | hn
  · rw [hn] at hix
    simp at hix
    exfalso
    have : (0 : ℚ) ≤ (i : ℚ) := by positivity
    linarith
  · have hnq : (0 : ℚ) < (data.length : ℚ) := by exact_mod_cast hn
    rw [lt_div_iff₀ hsr2] at hix
    rw [binFreq]
    have key : (i : ℚ) * (sr / (2 * (data.length : ℚ))) =
        ((i : ℚ) * (sr / 2)) / (data.length : ℚ) := by
      field_simp
    rw [key, div_lt_iff₀ hnq]
    exact hix

/-- C7 (amended): each band energy `analyzeFrequency` returns is the
arithmetic mean of the bin magnitudes over the SCANNED bins only — indices
`1 ≤ i < maxBin` — that fall in the band's range (first match of the
bass/mid/treble else-if chain), and every scanned bin's frequency is
strictly below `min(5000, Nyquist)`: the treble mean never includes bins
above the 5000 Hz scan cap, not the full 4000-20000 Hz range. -/
theorem band_energy_characterization (data : List ℕ) (sr : ℚ) :
    (analyzeFrequency data sr =
      { bass := bandMean data ((scannedBins data sr).filter (bassCond (binSizeOf data sr)))
        mid := bandMean data ((scannedBins data sr).filter (midOnly (binSizeOf data sr)))
        treble :=
          bandMean data
            ((scannedBins data sr).filter (trebleOnly (binSizeOf data sr))) }) ∧
    (0 < sr → ∀ i ∈ scannedBins data sr, binFreq sr data.length i < jsMinQ 5000 (sr / 2)) :=
  ⟨band_energy_scanned_means data sr, scannedBins_freq_lt data sr⟩

/-- An 8-bin frame with all its energy in bin 2; at sample rate 44100 that
bin sits at 5512.5 Hz — inside the configured 4000-20000 Hz treble band but
above the 5000 Hz scan cap. -/
def data8 : List ℕ := (List.replicate 8 0).set 2 255

/-- C7 counterexample: a frame whose only energy lies at 5512.5 Hz — inside
the 4000-20000 Hz treble band — yields treble energy 0 from the code, while
the claim's mean over all bins in [4000, 20000] Hz is 1/6. -/
theorem treble_scan_cap_counterexample :
    (analyzeFrequency data8 44100).treble = 0 ∧
    claimedBandEnergy data8 44100 4000 20000 = 1/6 ∧
    ((0 : ℚ) ≠ 1/6) := by
  refine ⟨?_, ?_, by norm_num⟩
  · norm_num [analyzeFrequency, scannedBins, scanMaxBin, jsMinQ, binSizeOf, data8,
      List.replicate, List.range']
  · norm_num [claimedBandEnergy, binFreq, data8, List.replicate, List.range_succ]

/-- `calculateSpectralFlux` (audio-analyzer.js:406-431): over the 20-4000 Hz
bins, sum the positive frame-to-frame magnitude increases and divide by the
bin count. -/
def calculateSpectralFlux (current previous : List ℕ) (sr : ℚ) : ℚ :=
  let startBin := freqToBin sr current.length 20
  let endBin := freqToBin sr current.length 4000
  let idxs := List.range' startBin (min endBin current.length - startBin)
  let flux := idxs.foldl
    (fun acc i =>
      let diff := (current.getD i 0 : ℚ) / 255 - (previous.getD i 0 : ℚ) / 255
      if 0 < diff then acc + diff else acc) 0
  flux / ((endBin : ℚ) - (startBin : ℚ))

/-- The flux value computed within one `getAnalysisData` tick
(audio-analyzer.js:115-119): `updateHistory` (line 116, body at 400-403)
copies the current frame into `previousFrequencyData` BEFORE
`calculateSpectralFlux` (line 119) reads it, so the comparison is of the
current frame against itself. -/
def tickSpectralFlux (current : List ℕ) (sr : ℚ) : ℚ :=
  let newPrevious := current
  calculateSpectralFlux current newPrevious sr

/-- Spec-worded spectral flux, for comparison with the code: the sum over
the 20-4000 Hz bins of `max(0, current - previous)` with `previous` the
preceding tick's frame, normalized by bin count. -/
def claimedSpectralFlux (current previous : List ℕ) (sr : ℚ) : ℚ :=
  let startBin := freqToBin sr current.length 20
  let endBin := freqToBin sr current.length 4000
  let idxs := List.range' startBin (min endBin current.length - startBin)
  ((idxs.map fun i =>
      jsMaxQ 0 ((current.getD i 0 : ℚ) / 255 - (previous.getD i 0 : ℚ) / 255)).sum)
    / ((endBin : ℚ) - (startBin : ℚ))

lemma foldl_pos_sum (g : ℕ → ℚ) (l : List ℕ) (acc : ℚ) :
    l.foldl (fun a i => if 0 < g i then a + g i else a) acc
      = acc + (l.map fun i => jsMaxQ 0 (g i)).sum := by
  induction l generalizing acc with
  | nil => simp
  | cons i rest ih =>
    simp only [List.foldl_cons, List.map_cons, List.sum_cons, ih]
    by_cases h : 0 < g i
    · rw [if_pos h, jsMaxQ, if_pos h]
      ring
    · rw [if_neg h, jsMaxQ, if_neg h]
      ring

lemma calculateSpectralFlux_eq_claimed (current previous : List ℕ) (sr : ℚ) :
    calculateSpectralFlux current previous sr = claimedSpectralFlux current previous sr := by
  simp only [calculateSpectralFlux, claimedSpectralFlux]
  rw [foldl_pos_sum (fun i => (current.getD i 0 : ℚ) / 255 - (previous.getD i 0 : ℚ) / 255)]
  rw [zero_add]

/-- C5: within `getAnalysisData` the spectral flux is ALWAYS zero, for every
frame and sample rate, because the previous-frame buffer is overwritten
with the current frame before the flux is computed; the standalone
`calculateSpectralFlux` does implement exactly the claimed formula, and on
the claimed semantics a pair of distinct consecutive frames yields the
nonzero flux 1/8 — the per-tick wiring, not the formula, is at fault. -/
theorem spectral_flux_tick_always_zero :
    (∀ (current : List ℕ) (sr : ℚ), tickSpectralFlux current sr = 0) ∧
    (∀ (current previous : List ℕ) (sr : ℚ),
      calculateSpectralFlux current previous sr =
        claimedSpectralFlux current previous sr) ∧
    claimedSpectralFlux data8 (List.replicate 8 0) 8000 = 1/8 ∧
    ((1 : ℚ)/8 ≠ 0) := by
  refine ⟨?_, calculateSpectralFlux_eq_claimed, ?_, by norm_num⟩
  · intro current sr
    rw [tickSpectralFlux, calculateSpectralFlux_eq_claimed]
    simp only [claimedSpectralFlux, sub_self]
    have hmax : jsMaxQ 0 (0 : ℚ) = 0 := by rw [jsMaxQ]; simp
    simp [hmax]
  · norm_num [claimedSpectralFlux, freqToBin, data8, jsMaxQ, List.range',
      List.replicate, Int.toNat]

/-- The exactly-computable volume fields of `calculateVolume`
(audio-analyzer.js:135-155); `rms` and `level` involve a floating-point
square root and are not modelled (no claim depends on their values). -/
structure VolumeStats where
  average : ℚ
  max : ℚ
deriving DecidableEq, Repr

/-- `calculateVolume` (audio-analyzer.js:135-155): mean and maximum of
`|sample - 128| / 128` over the time-domain frame. -/
def calculateVolume (data : List ℕ) : VolumeStats :=
  let sum := (data.map fun d => |(d : ℚ) - 128| / 128).sum
  let maxv := data.foldl (fun m d => jsMaxQ m (|(d : ℚ) - 128| / 128)) 0
  { average := sum / (data.length : ℚ), max := maxv }

/-- The per-tick result object `getAnalysisData` returns
(audio-analyzer.js:121-126). -/
structure AnalysisResult where
  volume : VolumeStats
  frequency : FreqLevels
  beat : BeatResult
  timestamp : ℤ
deriving DecidableEq, Repr

/-- Analyzer state including the `previousFrequencyData` buffer
(audio-analyzer.js:24-28). -/
structure FullAnalyzerState where
  beatState : AnalyzerState
  previousFrequencyData : List ℕ
deriving DecidableEq, Repr

/-- Full analyzer state at construction. -/
def freshFull : FullAnalyzerState :=
  { beatState := freshAnalyzer, previousFrequencyData := [] }

/-- `getAnalysisData` (audio-analyzer.js:100-132): returns `null` when the
analyzer is not initialized, and `null` when reading the frames throws
(modelled as `frames = none`, swallowed by the try/catch); otherwise
computes volume, frequency and beat, runs `updateHistory` (copying the
current frame into the previous-frame buffer), computes the spectral flux
into a local that is dropped, and returns the result object. -/
def getAnalysisData (isInitialized : Bool)
    (frames : Option (List ℕ × List ℕ)) (now : ℤ) (sr : ℚ)
    (s : FullAnalyzerState) : Option AnalysisResult × FullAnalyzerState :=
  if ¬(isInitialized = true) then (none, s)
  else
    match frames with
    | none => (none, s)
    | some (frequencyData, timeData) =>
      let volume := calculateVolume timeData
      let frequency := analyzeFrequency frequencyData sr
      let beatStep := detectBeat now frequencyData sr s.beatState
      let newPrevious := frequencyData
      let _spectralFlux := calculateSpectralFlux frequencyData newPrevious sr
      (some { volume := volume, frequency := frequency, beat := beatStep.1, timestamp := now },
       { beatState := beatStep.2, previousFrequencyData := newPrevious })

/-- Spec-worded zero-valued AnalysisResult, for comparison with the code:
volume, frequency, beat and timestamp fields all present and zero-valued. -/
def zeroAnalysisResult : AnalysisResult :=
  { volume := { average := 0, max := 0 }
    frequency := { bass := 0, mid := 0, treble := 0 }
    beat := noBeatResult
    timestamp := 0 }

/-- C9 (amended): `getAnalysisData` never raises — it is a total function —
and on an uninitialized analyzer, or when frame acquisition fails, it
returns `null` (an absent result, `none`), leaving the analyzer state
untouched. -/
theorem getAnalysisData_none_on_failure :
    (∀ (frames : Option (List ℕ × List ℕ)) (now : ℤ) (sr : ℚ) (s : FullAnalyzerState),
      getAnalysisData false frames now sr s = (none, s)) ∧
    (∀ (init : Bool) (now : ℤ) (sr : ℚ) (s : FullAnalyzerState),
      getAnalysisData init none now sr s = (none, s)) := by
  constructor
  · intro frames now sr s
    rfl
  · intro init now sr s
    cases init
    · rfl
    · rfl

/-- C9 counterexample: on an uninitialized analyzer `getAnalysisData`
returns `none` — an absent result — and not the claimed zero-valued
AnalysisResult with all fields present. -/
theorem getAnalysisData_null_counterexample :
    (getAnalysisData false none 0 44100 freshFull).1 = none ∧
    (getAnalysisData false none 0 44100 freshFull).1 ≠ some zeroAnalysisResult := by
  constructor
  · rfl
  · intro h
    simp only [getAnalysisData] at h
    simp at h

end AudioVibrate
